import Mathlib

/-!
Verification development for the `mcp-email-server` classic email client
(`mcp_email_server/emails/classic.py` and `mcp_email_server/emails/models.py`).

The Python code is shallowly embedded: pure helpers become Lean functions;
calls into external collaborators (the IMAP session object, the stdlib MIME
parser, codec tables, the wall clock) become explicit oracle records passed
to the embedded functions; Python exceptions become `Except PyExc`;
Python `bytes` become `List Nat`.
-/

set_option maxHeartbeats 1000000
set_option maxRecDepth 8000

/-- Python exception classes that the embedded code can raise or catch. -/
inductive PyExc where
  | connectionError
  | authError
  | typeError
  | indexError
  | lookupError
  | unicodeDecodeError
  | generatorExit
  | otherError
deriving DecidableEq, Repr

/-- Python `bytes` values, as lists of byte values. -/
abbrev Bytes := List Nat

/-- Python's `needle in hay` containment test for `bytes`/lists
(`b"x" in b""` is `False`, `b"" in b"x"` is `True`). -/
def subList [DecidableEq α] (needle : List α) : List α → Bool
  | [] => needle.isEmpty
  | h :: t => needle.isPrefixOf (h :: t) || subList needle t

/-- Python's `hay.find(needle)`: index of the first occurrence of
`needle`, `none` standing for Python's `-1`. -/
def firstIndexOfSub [DecidableEq α] (needle : List α) : List α → Option Nat
  | [] => if needle.isEmpty then some 0 else none
  | h :: t =>
    if needle.isPrefixOf (h :: t) then some 0
    else (firstIndexOfSub needle t).map (· + 1)

/-- Python's `hay.find(bytes([v]), start)`: first index `≥ start` holding
byte `v`; `none` stands for `-1`. -/
def findByteFrom (hay : Bytes) (v : Nat) (start : Nat) : Option Nat :=
  (firstIndexOfSub [v] (hay.drop start)).map (· + start)

/-- Slice `hay[s:e]` for `0 ≤ s ≤ e` (byte slice used when extracting flags). -/
def sliceBytes (hay : Bytes) (s e : Nat) : Bytes :=
  (hay.drop s).take (e - s)

/-- ASCII string literal as Python bytes (all our protocol constants are ASCII). -/
def strBytes (s : String) : Bytes := s.data.map Char.toNat

/-- Bytes rendered as a string, one char per byte (used to build oracle
outputs for ASCII byte lists). -/
def asciiStr (b : Bytes) : String := String.mk (b.map Char.ofNat)

/-- Whether a byte is ASCII whitespace, as recognised by Python's
`bytes.split()` with no argument. -/
def isWSByte (c : Nat) : Bool := c = 32 || c = 9 || c = 10 || c = 13 || c = 11 || c = 12

/-- Helper for `bytesSplitWS`: split with an accumulated current token. -/
def splitWSAux : Bytes → Bytes → List Bytes
  | [], cur => if cur.isEmpty then [] else [cur.reverse]
  | c :: rest, cur =>
    if isWSByte c then
      if cur.isEmpty then splitWSAux rest []
      else cur.reverse :: splitWSAux rest []
    else splitWSAux rest (c :: cur)

/-- Python's `bytes.split()` (no argument): split on runs of whitespace,
producing no empty tokens. -/
def bytesSplitWS (b : Bytes) : List Bytes := splitWSAux b []

/-- Python's `str.split()` (no argument): split on runs of whitespace,
producing no empty tokens. -/
def pySplitWS (s : String) : List String :=
  (s.split Char.isWhitespace).filter (fun t => t ≠ "")

/-- Python's `", ".join(l)`. -/
def joinComma (l : List String) : String := String.intercalate ", " l

/-- Test `needle in hay` for Python strings. -/
def strContains (needle hay : String) : Bool := subList needle.data hay.data

/-- Python list slice `l[a:b]` (step 1) with full negative-index semantics:
negative bounds count from the end, then both are clamped to `[0, len]`. -/
def pySlice (l : List α) (a b : Int) : List α :=
  let n : Int := l.length
  let a' : Int := if a < 0 then max (a + n) 0 else min a n
  let b' : Int := if b < 0 then max (b + n) 0 else min b n
  (l.drop a'.toNat).take (b' - a').toNat

/-! ### Search criteria (`EmailClient._build_search_criteria`, classic.py lines 240-288) -/

/-- A `datetime.date`-like value, only as far as `strftime("%d-%b-%Y")` needs it. -/
structure PyDate where
  year : Nat
  month : Nat
  day : Nat
deriving DecidableEq, Repr

/-- Three-letter English month abbreviations used by `%b` (C locale). -/
def monthAbbrUpper (m : Nat) : String :=
  match m with
  | 1 => "JAN" | 2 => "FEB" | 3 => "MAR" | 4 => "APR" | 5 => "MAY" | 6 => "JUN"
  | 7 => "JUL" | 8 => "AUG" | 9 => "SEP" | 10 => "OCT" | 11 => "NOV" | 12 => "DEC"
  | _ => ""

/-- Zero-padded two-digit rendering for `%d`. -/
def pad2 (n : Nat) : String := if n < 10 then "0" ++ toString n else toString n

/-- Zero-padded four-digit rendering for `%Y`. -/
def pad4 (n : Nat) : String :=
  if n < 10 then "000" ++ toString n
  else if n < 100 then "00" ++ toString n
  else if n < 1000 then "0" ++ toString n
  else toString n

/-- Rendering `d.strftime("%d-%b-%Y").upper()` from classic.py lines 267/269. -/
def dateTokenUpper (d : PyDate) : String :=
  pad2 d.day ++ "-" ++ monthAbbrUpper d.month ++ "-" ++ pad4 d.year

/-- Python truthiness of an optional string (`None` and `""` are falsy). -/
def strTruthy : Option String → Bool
  | none => false
  | some s => s ≠ ""

/-- The pair of tokens contributed by one optional date criterion
(`if before: search_criteria.extend(["BEFORE", before.strftime(...).upper()])`;
`datetime` values are always truthy in Python). -/
def dateSeg (tag : String) : Option PyDate → List String
  | some d => [tag, dateTokenUpper d]
  | none => []

/-- The pair of tokens contributed by one optional text criterion
(`if subject: search_criteria.extend(["SUBJECT", subject])`; the empty
string is falsy, so it contributes nothing). -/
def strSeg (tag : String) : Option String → List String
  | some s => if s = "" then [] else [tag, s]
  | none => []

/-- Model of `EmailClient._add_flag_criteria` (classic.py lines 240-251): appends the
flag tokens for the two tri-state flags to the criteria list. -/
def add_flag_criteria (c : List String) (is_unread is_flagged : Option Bool) : List String :=
  let c :=
    match is_unread with
    | some true => c ++ ["UNSEEN"]
    | some false => c ++ ["SEEN"]
    | none => c
  match is_flagged with
  | some true => c ++ ["FLAGGED"]
  | some false => c ++ ["UNFLAGGED"]
  | none => c

/-- The tokens `_add_flag_criteria` appends (proved below to agree with it). -/
def flagSeg (is_unread is_flagged : Option Bool) : List String :=
  (match is_unread with
   | some true => ["UNSEEN"]
   | some false => ["SEEN"]
   | none => []) ++
  (match is_flagged with
   | some true => ["FLAGGED"]
   | some false => ["UNFLAGGED"]
   | none => [])

/-- Model of `EmailClient._build_search_criteria` (classic.py lines 253-288): the list
starts empty, each truthy field appends its tokens in the fixed source
order, the flag criteria are appended, and `["ALL"]` is returned when
nothing was added. -/
def build_search_criteria (before since : Option PyDate)
    (subject bodyq textq from_address to_address : Option String)
    (is_unread is_flagged : Option Bool) : List String :=
  let c : List String := []
  let c := c ++ dateSeg "BEFORE" before
  let c := c ++ dateSeg "SINCE" since
  let c := c ++ strSeg "SUBJECT" subject
  let c := c ++ strSeg "BODY" bodyq
  let c := c ++ strSeg "TEXT" textq
  let c := c ++ strSeg "FROM" from_address
  let c := c ++ strSeg "TO" to_address
  let c := add_flag_criteria c is_unread is_flagged
  if c = [] then ["ALL"] else c

/-- Whether any field of the filter is truthy, i.e. whether any branch of
`_build_search_criteria` appends tokens. -/
def anyCriteria (before since : Option PyDate)
    (subject bodyq textq from_address to_address : Option String)
    (is_unread is_flagged : Option Bool) : Bool :=
  before.isSome || since.isSome || strTruthy subject || strTruthy bodyq ||
  strTruthy textq || strTruthy from_address || strTruthy to_address ||
  is_unread.isSome || is_flagged.isSome

/-! ### MIME parsing (`EmailClient._parse_email_data`, classic.py lines 28-84)

The stdlib pieces (`BytesParser.parsebytes`, `email.utils.parsedate_tz`,
`mktime_tz`/`datetime.fromtimestamp`, the codec registry, `datetime.now`)
are external collaborators; they enter the model as oracle records.
`datetime` values are abstracted to integers. -/

/-- Result of a Python `bytes.decode(charset)` call in the model. -/
abbrev DecodeResult := Except PyExc String

/-- The Python codec registry, as the model sees it.
`lookup cs = none` models an unknown codec (so `bytes.decode(cs)` raises
`LookupError`); a known codec's decoder returns `none` on bytes it cannot
decode (so `decode` raises `UnicodeDecodeError`).  `utf8Replace` models
`bytes.decode("utf-8", errors="replace")` and `utf8Ignore` models
`bytes.decode("utf-8", errors="ignore")`; both are total in Python. -/
structure Codecs where
  lookup : String → Option (Bytes → Option String)
  utf8Replace : Bytes → String
  utf8Ignore : Bytes → String

/-- Python's `b.decode(cs)`: `LookupError` for an unknown codec name,
`UnicodeDecodeError` for undecodable bytes, otherwise the decoded text. -/
def pyDecode (c : Codecs) (cs : String) (b : Bytes) : DecodeResult :=
  match c.lookup cs with
  | none => .error .lookupError
  | some dec =>
    match dec b with
    | some s => .ok s
    | none => .error .unicodeDecodeError

/-- classic.py lines 64-67/73-76: `try: body = payload.decode(charset)
except UnicodeDecodeError: body = payload.decode("utf-8", errors="replace")`.
Only `UnicodeDecodeError` is caught; any other error (notably the
`LookupError` of an unknown charset) propagates. -/
def decodeWithFallback (c : Codecs) (cs : String) (b : Bytes) : DecodeResult :=
  match pyDecode c cs b with
  | .ok s => .ok s
  | .error .unicodeDecodeError => .ok (c.utf8Replace b)
  | .error e => .error e

/-- One part of a parsed message as `_parse_email_data` reads it:
`get_content_type()`, `str(get("Content-Disposition", ""))`,
`get_filename()`, `get_payload(decode=True)` and
`get_content_charset("utf-8")` (`charsetParam = none` models the failobj
`"utf-8"` being returned). -/
structure PyPart where
  contentType : String
  contentDisposition : String
  filename : Option String
  payloadDec : Option Bytes
  charsetParam : Option String
deriving DecidableEq, Repr

/-- A parsed `email.message.Message` as `_parse_email_data` reads it.
`walkParts` is the sequence `walk()` yields when the message is multipart;
`payloadDec`/`charsetParam` are the whole-message payload and charset used
on the non-multipart path. -/
structure PyMessage where
  subject : String
  fromAddr : String
  dateStr : String
  isMultipart : Bool
  walkParts : List PyPart
  payloadDec : Option Bytes
  charsetParam : Option String
deriving DecidableEq, Repr

/-- External-collaborator oracles for `_parse_email_data`: the stdlib MIME
parser, date utilities, codecs and the wall clock. -/
structure ParseCtx where
  parsebytes : Bytes → PyMessage
  parsedate_tz : String → Option Int
  mk_datetime : Int → Except PyExc Int
  codecs : Codecs
  now : Int

/-- The dictionary `_parse_email_data` returns (classic.py lines 78-84). -/
structure ParsedEmail where
  subject : String
  fromAddr : String
  body : String
  date : Int
  attachments : List String
deriving DecidableEq, Repr

/-- classic.py lines 38-43: `try: date_tuple = parsedate_tz(date_str);
date = fromtimestamp(mktime_tz(date_tuple)) if date_tuple else now()
except Exception: date = now()`. -/
def parseDateField (ctx : ParseCtx) (dateStr : String) : Int :=
  match ctx.parsedate_tz dateStr with
  | none => ctx.now
  | some t =>
    match ctx.mk_datetime t with
    | .ok d => d
    | .error _ => ctx.now

/-- classic.py lines 50-67: the multipart `walk()` loop, accumulating body
text and attachment filenames in part order.  Attachment-disposition parts
contribute a filename (when present) and no body; `text/plain` parts with a
truthy decoded payload contribute decoded text. -/
def walkBody (ctx : ParseCtx) : List PyPart → Except PyExc (String × List String)
  | [] => .ok ("", [])
  | p :: rest =>
    if strContains "attachment" p.contentDisposition then
      match p.filename with
      | some fn => (walkBody ctx rest).map (fun r => (r.1, fn :: r.2))
      | none => walkBody ctx rest
    else if p.contentType = "text/plain" then
      match p.payloadDec with
      | some bp =>
        if bp.isEmpty then walkBody ctx rest
        else
          match decodeWithFallback ctx.codecs (p.charsetParam.getD "utf-8") bp with
          | .ok s => (walkBody ctx rest).map (fun r => (s ++ r.1, r.2))
          | .error e => .error e
      | none => walkBody ctx rest
    else walkBody ctx rest

/-- Model of `EmailClient._parse_email_data` (classic.py lines 28-84). -/
def parse_email_data (ctx : ParseCtx) (raw : Bytes) : Except PyExc ParsedEmail :=
  let m := ctx.parsebytes raw
  let date := parseDateField ctx m.dateStr
  if m.isMultipart then
    match walkBody ctx m.walkParts with
    | .error e => .error e
    | .ok r => .ok ⟨m.subject, m.fromAddr, r.1, date, r.2⟩
  else
    match m.payloadDec with
    | some bp =>
      if bp.isEmpty then .ok ⟨m.subject, m.fromAddr, "", date, []⟩
      else
        match decodeWithFallback ctx.codecs (m.charsetParam.getD "utf-8") bp with
        | .ok s => .ok ⟨m.subject, m.fromAddr, s, date, []⟩
        | .error e => .error e
    | none => .ok ⟨m.subject, m.fromAddr, "", date, []⟩

/-! ### Fetch pipeline (`EmailClient.get_emails_stream` per-message body,
classic.py lines 137-232) -/

/-- One element of the list returned by `imap.uid("fetch", ...)`:
`bytes`, `bytearray`, or some other shape (tuple/str/None inside the list). -/
inductive RespItem where
  | bytesItem (b : Bytes)
  | byteArrayItem (b : Bytes)
  | otherItem
deriving DecidableEq, Repr

/-- The `data` part of an `imap.uid("fetch", ...)` response: `None` or a
list of items. -/
abbrev FetchData := Option (List RespItem)

/-- Python truthiness of `data` (`None` and `[]` are falsy). -/
def dataTruthy : FetchData → Bool
  | none => false
  | some l => !l.isEmpty

/-- classic.py line 146: the fixed ordered list of fetch request encodings,
non-destructive PEEK forms first. -/
def fetch_formats : List String :=
  ["(BODY.PEEK[] FLAGS)", "BODY.PEEK[] FLAGS", "(BODY[] FLAGS)", "(RFC822 FLAGS)"]

/-- classic.py lines 155-163: a bytes item matching `b"FETCH (" in item and
b"RFC822" not in item and b"BODY" not in item` is pure metadata. -/
def isMetadataOnly (b : Bytes) : Bool :=
  subList (strBytes "FETCH (") b &&
  !subList (strBytes "RFC822") b &&
  !subList (strBytes "BODY") b

/-- classic.py lines 155-167: an item counts as email content when it is not
the metadata shape and is a `bytes`/`bytearray` longer than 100 bytes
(a `bytearray` never takes the metadata branch, whose guard is
`isinstance(item, bytes)`). -/
def itemHasContent : RespItem → Bool
  | .bytesItem b => !isMetadataOnly b && decide (b.length > 100)
  | .byteArrayItem b => decide (b.length > 100)
  | .otherItem => false

/-- classic.py lines 154-167: `has_content` is set by scanning the items
until one passes `itemHasContent`. -/
def hasContent (items : List RespItem) : Bool := items.any itemHasContent

/-- classic.py lines 148-176: the fallback loop over fetch formats.  Each
iteration issues the fetch; an exception sets `data = None`; a truthy
response with content breaks out; a truthy response without content resets
`data = None`; a falsy response leaves `data` as returned.  The second
component records the formats actually attempted, in order. -/
def fetchLoop (fetch : String → String → Except PyExc FetchData) (mid : String) :
    List String → FetchData → FetchData × List String
  | [], d => (d, [])
  | fmt :: rest, _ =>
    match fetch mid fmt with
    | .error _ =>
      let r := fetchLoop fetch mid rest none
      (r.1, fmt :: r.2)
    | .ok data =>
      if dataTruthy data then
        if hasContent (data.getD []) then (data, [fmt])
        else
          let r := fetchLoop fetch mid rest none
          (r.1, fmt :: r.2)
      else
        let r := fetchLoop fetch mid rest data
        (r.1, fmt :: r.2)

/-- Whether one fetch attempt with this format would succeed: no exception,
truthy data, and a content-bearing fragment among the items. -/
def attemptOk (fetch : String → String → Except PyExc FetchData) (mid fmt : String) : Bool :=
  match fetch mid fmt with
  | .error _ => false
  | .ok data => dataTruthy data && hasContent (data.getD [])

/-- The data delivered by one fetch attempt (`none` when it raised). -/
def attemptData (fetch : String → String → Except PyExc FetchData) (mid fmt : String) : FetchData :=
  match fetch mid fmt with
  | .error _ => none
  | .ok data => data

/-- classic.py lines 193-212: the single loop over response items that
extracts the flag tokens (from the substring between `b"FLAGS ("` and the
next `b")"`, decoded ignoring errors and whitespace-split; each matching
item overwrites the previous flags) and selects the raw email bytes (the
last `bytes`/`bytearray` item longer than 100 bytes that is not a
protocol-chatter line, i.e. not a `bytes` item containing `b"FETCH"`
without `b"From:"` or `b"Subject:"`). -/
def scanItems (c : Codecs) (items : List RespItem) : List String × Option Bytes :=
  items.foldl
    (fun acc it =>
      let flags :=
        match it with
        | .bytesItem b =>
          if subList (strBytes "FLAGS (") b then
            match firstIndexOfSub (strBytes "FLAGS (") b with
            | some i =>
              let s := i + 7
              match findByteFrom b 41 s with
              | some e =>
                if s < e then pySplitWS (c.utf8Ignore (sliceBytes b s e)) else acc.1
              | none => acc.1
            | none => acc.1
          else acc.1
        | _ => acc.1
      let raw :=
        match it with
        | .bytesItem b =>
          if b.length > 100 then
            if subList (strBytes "FETCH") b &&
               !(subList (strBytes "From:") b || subList (strBytes "Subject:") b) then
              acc.2
            else some b
          else acc.2
        | .byteArrayItem b => if b.length > 100 then some b else acc.2
        | .otherItem => acc.2
      (flags, raw))
    ([], none)

/-! ### The email record (`EmailData`, models.py lines 7-37, populated at
classic.py lines 216-224) -/

/-- Record `EmailData` from models.py: the structured record handed to the caller. -/
structure EmailData where
  subject : String
  sender : String
  body : String
  date : Int
  attachments : List String
  is_read : Bool
  is_answered : Bool
  is_flagged : Bool
  is_deleted : Bool
  is_draft : Bool
  is_recent : Bool
  flags : List String
deriving DecidableEq, Repr

/-- classic.py lines 216-224: the parsed dictionary plus the six boolean
flag projections (`models.py`'s `EmailData.from_email` copies these fields
verbatim). -/
def mkEmailRecord (p : ParsedEmail) (flags : List String) : EmailData :=
  { subject := p.subject
    sender := p.fromAddr
    body := p.body
    date := p.date
    attachments := p.attachments
    is_read := flags.contains "\\Seen"
    is_answered := flags.contains "\\Answered"
    is_flagged := flags.contains "\\Flagged"
    is_deleted := flags.contains "\\Deleted"
    is_draft := flags.contains "\\Draft"
    is_recent := flags.contains "\\Recent"
    flags := flags }

/-- classic.py lines 138-232: processing of one message id inside its
`try/except` (any escaping exception is logged and the message skipped, so
the result is an `Option`).  Returns the record to yield (if any) and the
fetch formats attempted.  The id bytes are first decoded with strict UTF-8
(line 140); the fallback fetch loop runs; `if not data: continue`; then the
response items are scanned for flags and raw email bytes, and the raw email
is parsed (parse errors are logged and skipped). -/
def processMessage (fetch : String → String → Except PyExc FetchData)
    (ctx : ParseCtx) (mid : Bytes) : Option EmailData × List String :=
  match pyDecode ctx.codecs "utf-8" mid with
  | .error _ => (none, [])
  | .ok midStr =>
    let r := fetchLoop fetch midStr fetch_formats none
    if dataTruthy r.1 then
      let scanned := scanItems ctx.codecs (r.1.getD [])
      match scanned.2 with
      | none => (none, r.2)
      | some rawEmail =>
        match parse_email_data ctx rawEmail with
        | .error _ => (none, r.2)
        | .ok p => (some (mkEmailRecord p scanned.1), r.2)
    else (none, r.2)

/-! ### Session lifecycle, stream and count
(`EmailClient.get_emails_stream` lines 86-238, `EmailClient.get_email_count`
lines 290-323) -/

/-- The search response `messages` from `imap.uid_search`: `None` or a list
of byte strings (the first of which carries the whitespace-separated ids). -/
abbrev SearchResp := Option (List Bytes)

/-- The IMAP session object as an oracle: each method call's outcome.
`fetch` takes the decoded message-id string and the fetch format. -/
structure Session where
  connect : Except PyExc Unit
  hello : Except PyExc Unit
  login : Except PyExc Unit
  idCmd : Except PyExc Unit
  select : Except PyExc Unit
  search : List String → Except PyExc SearchResp
  fetch : String → String → Except PyExc FetchData
  logout : Except PyExc Unit

/-- Observable calls made on the session object. -/
inductive Ev where
  | connect
  | hello
  | login
  | idCmd
  | select
  | search
  | fetch (fmt : String)
  | logout
deriving DecidableEq, Repr

/-- classic.py lines 124-129: `if not messages or not messages[0]` the id
list is empty, otherwise `messages[0].split()`. -/
def searchIds : SearchResp → List Bytes
  | none => []
  | some [] => []
  | some (h :: _) => if h.isEmpty then [] else bytesSplitWS h

/-- classic.py lines 130-137: `start = (page-1)*page_size`,
`end = start + page_size`, the id list reversed when `order == "desc"`,
then the Python slice `message_ids[start:end]`. -/
def sliceForPage (ids : List α) (page page_size : Int) (order : String) : List α :=
  let start := (page - 1) * page_size
  let stop := start + page_size
  let ids := if order = "desc" then ids.reverse else ids
  pySlice ids start stop

/-- The result of running the stream generator to its end: the records
delivered, how the generator finished, and the calls made on the session. -/
structure StreamResult where
  yielded : List EmailData
  outcome : Except PyExc Unit
  events : List Ev
deriving Repr

/-- classic.py lines 137-232: the `for message_id in message_ids[start:end]`
loop.  Each id is processed under its own `try/except` (failures skip just
that message); a produced record is yielded.  `closeAfter = some k` models
the consumer abandoning the generator after `k` delivered records: the
generator is resumed with `GeneratorExit` at that yield, which no
`except Exception` clause catches, so the loop unwinds to the `finally`
(the abandonment itself is not an error for the consumer). -/
def streamLoop (fetch : String → String → Except PyExc FetchData) (ctx : ParseCtx)
    (closeAfter : Option Nat) :
    List Bytes → Nat → List EmailData × Except PyExc Unit × List Ev
  | [], _ => ([], .ok (), [])
  | mid :: rest, yielded =>
    let pr := processMessage fetch ctx mid
    let evs := pr.2.map Ev.fetch
    match pr.1 with
    | none =>
      let r := streamLoop fetch ctx closeAfter rest yielded
      (r.1, r.2.1, evs ++ r.2.2)
    | some rec =>
      match closeAfter with
      | some k =>
        if yielded + 1 ≥ k then ([rec], .ok (), evs)
        else
          let r := streamLoop fetch ctx closeAfter rest (yielded + 1)
          (rec :: r.1, r.2.1, evs ++ r.2.2)
      | none =>
        let r := streamLoop fetch ctx closeAfter rest (yielded + 1)
        (rec :: r.1, r.2.1, evs ++ r.2.2)

/-- classic.py lines 102-232: the body of the generator's outer `try`:
connect, greeting, login, best-effort `id` (its failure is caught and
ignored), select, build criteria, uid search, compute the page slice, then
the per-message loop. -/
def streamTryBody (s : Session) (ctx : ParseCtx) (closeAfter : Option Nat)
    (page page_size : Int) (before since : Option PyDate)
    (subject bodyq textq from_address to_address : Option String)
    (order : String) (is_unread is_flagged : Option Bool) :
    List EmailData × Except PyExc Unit × List Ev :=
  match s.connect with
  | .error e => ([], .error e, [Ev.connect])
  | .ok _ =>
  match s.hello with
  | .error e => ([], .error e, [Ev.connect, Ev.hello])
  | .ok _ =>
  match s.login with
  | .error e => ([], .error e, [Ev.connect, Ev.hello, Ev.login])
  | .ok _ =>
  match s.idCmd with
  | .error _ =>
    match s.select with
    | .error e => ([], .error e, [Ev.connect, Ev.hello, Ev.login, Ev.idCmd, Ev.select])
    | .ok _ =>
      let crit := build_search_criteria before since subject bodyq textq
        from_address to_address is_unread is_flagged
      match s.search crit with
      | .error e =>
        ([], .error e, [Ev.connect, Ev.hello, Ev.login, Ev.idCmd, Ev.select, Ev.search])
      | .ok resp =>
        let ids := sliceForPage (searchIds resp) page page_size order
        let r := streamLoop s.fetch ctx closeAfter ids 0
        (r.1, r.2.1,
          [Ev.connect, Ev.hello, Ev.login, Ev.idCmd, Ev.select, Ev.search] ++ r.2.2)
  | .ok _ =>
    match s.select with
    | .error e => ([], .error e, [Ev.connect, Ev.hello, Ev.login, Ev.idCmd, Ev.select])
    | .ok _ =>
      let crit := build_search_criteria before since subject bodyq textq
        from_address to_address is_unread is_flagged
      match s.search crit with
      | .error e =>
        ([], .error e, [Ev.connect, Ev.hello, Ev.login, Ev.idCmd, Ev.select, Ev.search])
      | .ok resp =>
        let ids := sliceForPage (searchIds resp) page page_size order
        let r := streamLoop s.fetch ctx closeAfter ids 0
        (r.1, r.2.1,
          [Ev.connect, Ev.hello, Ev.login, Ev.idCmd, Ev.select, Ev.search] ++ r.2.2)

/-- Model of `EmailClient.get_emails_stream` (classic.py lines 86-238): the outer
`try` body followed by the `finally` block, which issues `logout` exactly
once inside its own `try/except` so that a logout failure is logged and
never changes the operation's outcome. -/
def get_emails_stream (s : Session) (ctx : ParseCtx) (closeAfter : Option Nat)
    (page page_size : Int) (before since : Option PyDate)
    (subject bodyq textq from_address to_address : Option String)
    (order : String) (is_unread is_flagged : Option Bool) : StreamResult :=
  let r := streamTryBody s ctx closeAfter page page_size before since subject bodyq
    textq from_address to_address order is_unread is_flagged
  match s.logout with
  | .ok _ => ⟨r.1, r.2.1, r.2.2 ++ [Ev.logout]⟩
  | .error _ => ⟨r.1, r.2.1, r.2.2 ++ [Ev.logout]⟩

/-- classic.py lines 302-317: the body of `get_email_count`'s `try`:
connect, greeting, login (no `id` call here), select, search, then
`return len(messages[0].split())` with no guard on the response shape —
`None[0]` raises `TypeError` and `[][0]` raises `IndexError`. -/
def countTryBody (s : Session) (before since : Option PyDate)
    (subject bodyq textq from_address to_address : Option String)
    (is_unread is_flagged : Option Bool) : Except PyExc Nat × List Ev :=
  match s.connect with
  | .error e => (.error e, [Ev.connect])
  | .ok _ =>
  match s.hello with
  | .error e => (.error e, [Ev.connect, Ev.hello])
  | .ok _ =>
  match s.login with
  | .error e => (.error e, [Ev.connect, Ev.hello, Ev.login])
  | .ok _ =>
  match s.select with
  | .error e => (.error e, [Ev.connect, Ev.hello, Ev.login, Ev.select])
  | .ok _ =>
    let crit := build_search_criteria before since subject bodyq textq
      from_address to_address is_unread is_flagged
    match s.search crit with
    | .error e => (.error e, [Ev.connect, Ev.hello, Ev.login, Ev.select, Ev.search])
    | .ok resp =>
      let evs := [Ev.connect, Ev.hello, Ev.login, Ev.select, Ev.search]
      match resp with
      | none => (.error .typeError, evs)
      | some [] => (.error .indexError, evs)
      | some (h :: _) => (.ok (bytesSplitWS h).length, evs)

/-- Model of `EmailClient.get_email_count` (classic.py lines 290-323): the `try`
body followed by the same guarded-logout `finally`. -/
def get_email_count (s : Session) (before since : Option PyDate)
    (subject bodyq textq from_address to_address : Option String)
    (is_unread is_flagged : Option Bool) : Except PyExc Nat × List Ev :=
  let r := countTryBody s before since subject bodyq textq from_address to_address
    is_unread is_flagged
  match s.logout with
  | .ok _ => (r.1, r.2 ++ [Ev.logout])
  | .error _ => (r.1, r.2 ++ [Ev.logout])

/-! ### Sending (`EmailClient.send_email`, classic.py lines 325-355) -/

/-- Headers `MIMEText(body)` sets in its constructor, before the code adds
Subject/From/To/Cc. -/
def mimeTextBaseHeaders : List (String × String) :=
  [("Content-Type", "text/plain; charset=\"us-ascii\""),
   ("MIME-Version", "1.0"),
   ("Content-Transfer-Encoding", "7bit")]

/-- What `send_email` hands to SMTP: the composed message (headers and
body) and the delivery recipient list. -/
structure SendOutcome where
  headers : List (String × String)
  bodyText : String
  delivery : List String
deriving DecidableEq, Repr

/-- Model of the `EmailClient.send_email` composition (classic.py lines 328-355): build a
`MIMEText` message, set Subject/From/To, add a Cc header only when `cc` is
truthy, never add any Bcc header, then deliver to
`recipients + cc + bcc` (each of `cc`/`bcc` added only when truthy). -/
def send_email (sender : String) (recipients : List String) (subject bodyText : String)
    (cc bcc : Option (List String)) : SendOutcome :=
  let headers := mimeTextBaseHeaders ++
    [("Subject", subject), ("From", sender), ("To", joinComma recipients)]
  let headers :=
    match cc with
    | some l => if l.isEmpty then headers else headers ++ [("Cc", joinComma l)]
    | none => headers
  let all := recipients
  let all := all ++ (match cc with
    | some l => if l.isEmpty then [] else l
    | none => [])
  let all := all ++ (match bcc with
    | some l => if l.isEmpty then [] else l
    | none => [])
  ⟨headers, bodyText, all⟩

/-! ### Page assembly (`ClassicEmailHandler.get_emails`, classic.py
lines 367-400, and `EmailPageResponse`, models.py lines 40-49) -/

/-- Record `EmailPageResponse` from models.py. -/
structure EmailPageResponse where
  page : Int
  page_size : Int
  before : Option PyDate
  since : Option PyDate
  subject : Option String
  bodyq : Option String
  textq : Option String
  emails : List EmailData
  total : Nat
deriving DecidableEq, Repr

/-- Model of `ClassicEmailHandler.get_emails` (classic.py lines 367-400): drain the
stream into a list (`async for` consumes it fully, so `closeAfter = none`;
a stream setup failure propagates), then compute `total` with an
independent `get_email_count` over the same filter arguments (its failure
also propagates), and assemble the page response.  `streamSession` and
`countSession` are the two fresh connections the two calls open. -/
def handler_get_emails (streamSession countSession : Session) (ctx : ParseCtx)
    (page page_size : Int) (before since : Option PyDate)
    (subject bodyq textq from_address to_address : Option String)
    (order : String) (is_unread is_flagged : Option Bool) :
    Except PyExc EmailPageResponse :=
  let sr := get_emails_stream streamSession ctx none page page_size before since
    subject bodyq textq from_address to_address order is_unread is_flagged
  match sr.outcome with
  | .error e => .error e
  | .ok _ =>
    match (get_email_count countSession before since subject bodyq textq
        from_address to_address is_unread is_flagged).1 with
    | .error e => .error e
    | .ok total =>
      .ok ⟨page, page_size, before, since, subject, bodyq, textq, sr.yielded, total⟩

/-! ### Auxiliary definitions for the proofs: the pre-fallback token
concatenation, and concrete oracle instances used in concrete runs,
counterexamples and witnesses -/

/-- The token list before the `ALL` fallback, as one concatenation. -/
def critCore (before since : Option PyDate)
    (subject bodyq textq from_address to_address : Option String)
    (is_unread is_flagged : Option Bool) : List String :=
  dateSeg "BEFORE" before ++ dateSeg "SINCE" since ++ strSeg "SUBJECT" subject ++
  strSeg "BODY" bodyq ++ strSeg "TEXT" textq ++ strSeg "FROM" from_address ++
  strSeg "TO" to_address ++ flagSeg is_unread is_flagged

/-- A concrete strict decoder used to instantiate codec oracles: decodes
ASCII byte lists, fails (UnicodeDecodeError) on anything above 127. -/
def asciiDec : Bytes → Option String :=
  fun b => if b.all (· < 128) then some (asciiStr b) else none

/-- A concrete codec registry knowing only `"utf-8"` — in particular the
name `"bogus"` is not a codec, as in CPython. -/
def demoCodecs : Codecs where
  lookup := fun cs => if cs = "utf-8" then some asciiDec else none
  utf8Replace := fun b => asciiStr (b.map (fun c => if c < 128 then c else 63))
  utf8Ignore := fun b => asciiStr (b.filter (· < 128))

/-- A parsed message declaring `charset=bogus` on its single text payload
(e.g. raw bytes with header `Content-Type: text/plain; charset=bogus`,
which `get_content_charset` returns verbatim, lowercased). -/
def bogusCharsetMsg : PyMessage where
  subject := "s"
  fromAddr := "f"
  dateStr := ""
  isMultipart := false
  walkParts := []
  payloadDec := some [65]
  charsetParam := some "bogus"

/-- Stdlib oracles for the counterexample input. -/
def bogusCtx : ParseCtx where
  parsebytes := fun _ => bogusCharsetMsg
  parsedate_tz := fun _ => none
  mk_datetime := fun t => .ok t
  codecs := demoCodecs
  now := 0

/-- Oracles whose codec registry is total (every charset known), for the
C3 witness. -/
def totalCtx : ParseCtx where
  parsebytes := fun _ => bogusCharsetMsg
  parsedate_tz := fun _ => none
  mk_datetime := fun t => .ok t
  codecs :=
    { lookup := fun _ => some asciiDec
      utf8Replace := fun b => asciiStr (b.map (fun c => if c < 128 then c else 63))
      utf8Ignore := fun b => asciiStr (b.filter (· < 128)) }
  now := 0

/-! ### Concrete oracle instances used in concrete runs and witnesses -/

/-- A metadata-only fetch response fragment (`'12 FETCH (UID 7)'`). -/
def metaFragment : Bytes := strBytes "12 FETCH (UID 7)"

/-- A content-bearing fragment for the C2 scenario: header-like bytes,
longer than 100 bytes, no `FETCH` chatter. -/
def demoContentA : Bytes := strBytes "From: x" ++ List.replicate 120 65

/-- A second content-bearing fragment (for the never-attempted fourth format). -/
def demoContentB : Bytes := strBytes "From: y" ++ List.replicate 120 66

/-- A mock session's fetch in which only the third of the four encodings
returns content-bearing fragments: the first returns metadata only, the
second raises, the third and fourth return content. -/
def thirdFormatFetch : String → String → Except PyExc FetchData :=
  fun _ fmt =>
    if fmt = "(BODY.PEEK[] FLAGS)" then .ok (some [RespItem.bytesItem metaFragment])
    else if fmt = "BODY.PEEK[] FLAGS" then .error .connectionError
    else if fmt = "(BODY[] FLAGS)" then .ok (some [RespItem.bytesItem demoContentA])
    else .ok (some [RespItem.bytesItem demoContentB])

/-- Stdlib oracles for the end-to-end concrete runs: `parsebytes` reads the
first byte of the raw email as subject and body, dates never parse
(falling back to `now = 0`), codecs are the ASCII stand-ins. -/
def demoParseCtx : ParseCtx where
  parsebytes := fun b =>
    { subject := asciiStr (b.take 1)
      fromAddr := "f"
      dateStr := ""
      isMultipart := false
      walkParts := []
      payloadDec := some (b.take 1)
      charsetParam := none }
  parsedate_tz := fun _ => none
  mk_datetime := fun t => .ok t
  codecs := demoCodecs
  now := 0

/-- Content bytes for message id byte `c`: the id byte then 120 filler
bytes (121 bytes total, no protocol markers). -/
def demoContent (c : Nat) : Bytes := c :: List.replicate 120 65

/-- A fetch oracle for the C1 scenario: fetching id `"2"` always raises,
ids `"1"` and `"3"` return content-bearing fragments. -/
def demoFetch : String → String → Except PyExc FetchData := fun mid _ =>
  if mid = "2" then .error .connectionError
  else if mid = "1" then .ok (some [RespItem.bytesItem (demoContent 49)])
  else .ok (some [RespItem.bytesItem (demoContent 51)])

/-- A session whose search matches ids `1 2 3` and whose fetch is
`demoFetch`. -/
def demoSession : Session where
  connect := .ok ()
  hello := .ok ()
  login := .ok ()
  idCmd := .ok ()
  select := .ok ()
  search := fun _ => .ok (some [strBytes "1 2 3"])
  fetch := demoFetch
  logout := .ok ()

/-- The record the demo pipeline produces for id byte `c`. -/
def demoRec (c : Nat) : EmailData :=
  { subject := asciiStr [c]
    sender := "f"
    body := asciiStr [c]
    date := 0
    attachments := []
    is_read := false
    is_answered := false
    is_flagged := false
    is_deleted := false
    is_draft := false
    is_recent := false
    flags := [] }

/-- A session whose `uid_search` yields `(status, None)`: a missing result. -/
def searchNoneSession : Session where
  connect := .ok ()
  hello := .ok ()
  login := .ok ()
  idCmd := .ok ()
  select := .ok ()
  search := fun _ => .ok none
  fetch := fun _ _ => .ok none
  logout := .ok ()

/-- A session whose `uid_search` yields `(status, [])`: an empty result list. -/
def searchEmptyListSession : Session where
  connect := .ok ()
  hello := .ok ()
  login := .ok ()
  idCmd := .ok ()
  select := .ok ()
  search := fun _ => .ok (some [])
  fetch := fun _ _ => .ok none
  logout := .ok ()

/-- A session whose `uid_search` yields `(status, [b""])`: an empty byte
string of matches (the usual "nothing matched" shape). -/
def searchEmptyBytesSession : Session where
  connect := .ok ()
  hello := .ok ()
  login := .ok ()
  idCmd := .ok ()
  select := .ok ()
  search := fun _ => .ok (some [[]])
  fetch := fun _ _ => .ok none
  logout := .ok ()

/-! ### Lemmas about the criteria builder -/

/-- The function `_add_flag_criteria` only appends the flag segment. -/
theorem add_flag_criteria_eq (c : List String) (u f : Option Bool) :
    add_flag_criteria c u f = c ++ flagSeg u f := by
  rcases u with _ | u <;> rcases f with _ | f <;> (try cases u) <;> (try cases f) <;>
    simp [add_flag_criteria, flagSeg]

theorem build_search_criteria_eq (b s : Option PyDate)
    (su bo te fr toq : Option String) (u f : Option Bool) :
    build_search_criteria b s su bo te fr toq u f =
      (if critCore b s su bo te fr toq u f = [] then ["ALL"]
       else critCore b s su bo te fr toq u f) := by
  simp [build_search_criteria, add_flag_criteria_eq, critCore, List.append_assoc]

theorem dateSeg_length (t : String) (d : Option PyDate) :
    (dateSeg t d).length = 0 ∨ (dateSeg t d).length = 2 := by
  cases d <;> simp [dateSeg]

theorem strSeg_length (t : String) (s : Option String) :
    (strSeg t s).length = 0 ∨ (strSeg t s).length = 2 := by
  rcases s with _ | s
  · simp [strSeg]
  · by_cases h : s = "" <;> simp [strSeg, h]

theorem flagSeg_mem (u f : Option Bool) (x : String) (hx : x ∈ flagSeg u f) :
    x = "UNSEEN" ∨ x = "SEEN" ∨ x = "FLAGGED" ∨ x = "UNFLAGGED" := by
  rcases u with _ | u <;> rcases f with _ | f <;> (try cases u) <;> (try cases f) <;>
    simp_all [flagSeg] <;> tauto

theorem dateSeg_eq_nil (t : String) (d : Option PyDate) (h : d.isSome = false) :
    dateSeg t d = [] := by
  cases d <;> simp_all [dateSeg]

theorem strSeg_eq_nil (t : String) (s : Option String) (h : strTruthy s = false) :
    strSeg t s = [] := by
  rcases s with _ | s
  · simp [strSeg]
  · simp only [strTruthy, ne_eq, decide_not, Bool.not_eq_false'] at h
    simp [strSeg, of_decide_eq_true h]

theorem flagSeg_eq_nil (u f : Option Bool)
    (hu : u.isSome = false) (hf : f.isSome = false) : flagSeg u f = [] := by
  cases u <;> cases f <;> simp_all [flagSeg]

theorem dateSeg_ne_nil (t : String) (d : Option PyDate) (h : d.isSome = true) :
    dateSeg t d ≠ [] := by
  cases d <;> simp_all [dateSeg]

theorem strSeg_ne_nil (t : String) (s : Option String) (h : strTruthy s = true) :
    strSeg t s ≠ [] := by
  rcases s with _ | s
  · simp [strTruthy] at h
  · simp only [strTruthy, ne_eq, decide_not, Bool.not_eq_true'] at h
    simp only [decide_eq_false_iff_not] at h
    simp [strSeg, h]

theorem flagSeg_ne_nil (u f : Option Bool) (h : u.isSome || f.isSome) :
    flagSeg u f ≠ [] := by
  rcases u with _ | u <;> rcases f with _ | f <;> (try cases u) <;> (try cases f) <;>
    simp_all [flagSeg]

/-- When the filter has no truthy field, the core token list is empty. -/
theorem critCore_eq_nil (b s : Option PyDate) (su bo te fr toq : Option String)
    (u f : Option Bool) (h : anyCriteria b s su bo te fr toq u f = false) :
    critCore b s su bo te fr toq u f = [] := by
  simp only [anyCriteria, Bool.or_eq_false_iff] at h
  obtain ⟨⟨⟨⟨⟨⟨⟨⟨h1, h2⟩, h3⟩, h4⟩, h5⟩, h6⟩, h7⟩, h8⟩, h9⟩ := h
  simp [critCore, dateSeg_eq_nil _ _ h1, dateSeg_eq_nil _ _ h2,
    strSeg_eq_nil _ _ h3, strSeg_eq_nil _ _ h4, strSeg_eq_nil _ _ h5,
    strSeg_eq_nil _ _ h6, strSeg_eq_nil _ _ h7, flagSeg_eq_nil _ _ h8 h9]

/-- When some filter field is truthy, the core token list is nonempty. -/
theorem critCore_ne_nil (b s : Option PyDate) (su bo te fr toq : Option String)
    (u f : Option Bool) (h : anyCriteria b s su bo te fr toq u f = true) :
    critCore b s su bo te fr toq u f ≠ [] := by
  intro hc
  simp only [critCore, List.append_eq_nil] at hc
  obtain ⟨⟨⟨⟨⟨⟨⟨h1, h2⟩, h3⟩, h4⟩, h5⟩, h6⟩, h7⟩, h8⟩ := hc
  simp only [anyCriteria, Bool.or_eq_true] at h
  rcases h with ((((((((h | h) | h) | h) | h) | h) | h) | h) | h)
  · exact dateSeg_ne_nil _ _ h h1
  · exact dateSeg_ne_nil _ _ h h2
  · exact strSeg_ne_nil _ _ h h3
  · exact strSeg_ne_nil _ _ h h4
  · exact strSeg_ne_nil _ _ h h5
  · exact strSeg_ne_nil _ _ h h6
  · exact strSeg_ne_nil _ _ h h7
  · exact flagSeg_ne_nil _ _ (by simp [h]) h8
  · exact flagSeg_ne_nil _ _ (by simp [h]) h8

/-- The core token list is never exactly `["ALL"]`: the seven field
segments have even length, so a singleton core must be the flag segment,
whose tokens are the four flag tokens, none of which is `"ALL"`. -/
theorem critCore_ne_single_all (b s : Option PyDate)
    (su bo te fr toq : Option String) (u f : Option Bool) :
    critCore b s su bo te fr toq u f ≠ ["ALL"] := by
  intro hc
  have hlen := congrArg List.length hc
  simp only [critCore, List.length_append, List.length_singleton] at hlen
  have l1 := dateSeg_length "BEFORE" b
  have l2 := dateSeg_length "SINCE" s
  have l3 := strSeg_length "SUBJECT" su
  have l4 := strSeg_length "BODY" bo
  have l5 := strSeg_length "TEXT" te
  have l6 := strSeg_length "FROM" fr
  have l7 := strSeg_length "TO" toq
  have h1 : (dateSeg "BEFORE" b).length = 0 := by omega
  have h2 : (dateSeg "SINCE" s).length = 0 := by omega
  have h3 : (strSeg "SUBJECT" su).length = 0 := by omega
  have h4 : (strSeg "BODY" bo).length = 0 := by omega
  have h5 : (strSeg "TEXT" te).length = 0 := by omega
  have h6 : (strSeg "FROM" fr).length = 0 := by omega
  have h7 : (strSeg "TO" toq).length = 0 := by omega
  rw [List.length_eq_zero] at h1 h2 h3 h4 h5 h6 h7
  rw [critCore, h1, h2, h3, h4, h5, h6, h7] at hc
  simp only [List.nil_append] at hc
  have : "ALL" ∈ flagSeg u f := by rw [hc]; simp
  rcases flagSeg_mem u f "ALL" this with h | h | h | h <;> simp at h

/-! ### Claim C8 -/

/-- C8 (counterexample to the claim as stated): the subject field can be
supplied (`isSome`) as the empty string, yet `_build_search_criteria`
still produces exactly `["ALL"]`, because Python's `if subject:` treats
`""` as absent. -/
theorem c8_match_all_counterexample :
    (some "" : Option String).isSome = true ∧
    build_search_criteria none none (some "") none none none none none none = ["ALL"] := by
  constructor
  · rfl
  · rfl

/-- C8 (amended): a filter with no truthy field (no date, no non-empty
text field, no boolean for either tri-state flag) yields exactly the
single match-all token `["ALL"]`; a filter with at least one truthy field
never yields the match-all fallback. -/
theorem c8_match_all_token (b s : Option PyDate)
    (su bo te fr toq : Option String) (u f : Option Bool) :
    (anyCriteria b s su bo te fr toq u f = false →
      build_search_criteria b s su bo te fr toq u f = ["ALL"]) ∧
    (anyCriteria b s su bo te fr toq u f = true →
      build_search_criteria b s su bo te fr toq u f ≠ ["ALL"]) := by
  constructor
  · intro h
    rw [build_search_criteria_eq, critCore_eq_nil b s su bo te fr toq u f h]
    simp
  · intro h
    rw [build_search_criteria_eq]
    rw [if_neg (critCore_ne_nil b s su bo te fr toq u f h)]
    exact critCore_ne_single_all b s su bo te fr toq u f

/-- C8 witness: both directions of `c8_match_all_token` evaluated at
concrete filters. -/
theorem c8_match_all_token_witness :
    build_search_criteria none none none none none none none none none = ["ALL"] ∧
    build_search_criteria none none (some "x") none none none none none none ≠ ["ALL"] :=
  ⟨(c8_match_all_token none none none none none none none none none).1 rfl,
   (c8_match_all_token none none (some "x") none none none none none none).2 rfl⟩

/-! ### Claim C10 -/

/-- C10: supplying any text field (subject, body, free-text, from-address,
to-address) as the empty string yields the same token sequence as leaving
the field absent, because Python's truthiness test rejects `""`; in
particular a filter whose only supplied field is an empty-string subject
yields the single match-all token. -/
theorem c10_empty_string_fields_ignored :
    (∀ (b s : Option PyDate) (bo te fr toq : Option String) (u f : Option Bool),
      build_search_criteria b s (some "") bo te fr toq u f =
      build_search_criteria b s none bo te fr toq u f) ∧
    (∀ (b s : Option PyDate) (su te fr toq : Option String) (u f : Option Bool),
      build_search_criteria b s su (some "") te fr toq u f =
      build_search_criteria b s su none te fr toq u f) ∧
    (∀ (b s : Option PyDate) (su bo fr toq : Option String) (u f : Option Bool),
      build_search_criteria b s su bo (some "") fr toq u f =
      build_search_criteria b s su bo none fr toq u f) ∧
    (∀ (b s : Option PyDate) (su bo te toq : Option String) (u f : Option Bool),
      build_search_criteria b s su bo te (some "") toq u f =
      build_search_criteria b s su bo te none toq u f) ∧
    (∀ (b s : Option PyDate) (su bo te fr : Option String) (u f : Option Bool),
      build_search_criteria b s su bo te fr (some "") u f =
      build_search_criteria b s su bo te fr none u f) ∧
    build_search_criteria none none (some "") none none none none none none = ["ALL"] := by
  refine ⟨fun _ _ _ _ _ _ _ _ => ?_, fun _ _ _ _ _ _ _ _ => ?_,
    fun _ _ _ _ _ _ _ _ => ?_, fun _ _ _ _ _ _ _ _ => ?_,
    fun _ _ _ _ _ _ _ _ => ?_, rfl⟩ <;> rfl

/-! ### Claim C6 -/

/-- C6: the composed message's headers are computed without any reference
to `bcc` (they are identical to a run with `bcc` absent), while the
delivery list handed to `smtp.send_message` is exactly
`recipients + cc + bcc`; the spec's concrete scenario (recipients `[A]`,
bcc `[B]`) is included. -/
theorem c6_bcc_confidentiality :
    (∀ (sender : String) (recipients : List String) (subject bodyText : String)
        (cc bcc : Option (List String)),
      (send_email sender recipients subject bodyText cc bcc).headers =
      (send_email sender recipients subject bodyText cc none).headers) ∧
    (∀ (sender : String) (recipients : List String) (subject bodyText : String)
        (cc bcc : Option (List String)),
      (send_email sender recipients subject bodyText cc bcc).delivery =
      recipients ++ cc.getD [] ++ bcc.getD []) ∧
    ((send_email "me" ["A"] "s" "b" none (some ["B"])).headers =
       (send_email "me" ["A"] "s" "b" none none).headers ∧
     (send_email "me" ["A"] "s" "b" none (some ["B"])).delivery = ["A", "B"]) := by
  refine ⟨fun sender r subj bt cc bcc => rfl, fun sender r subj bt cc bcc => ?_, rfl, rfl⟩
  rcases cc with _ | l <;> rcases bcc with _ | m <;>
    (simp [send_email]; try (split_ifs <;> simp_all))

/-! ### Claim C4 -/

/-- C4 (counterexample to the claim as stated): `page = -1` is an
out-of-range page, yet over 25 matched identifiers (descending order) the
stream's slice `message_ids[start:end]` with `start = -20, end = -10` is
Python negative-index slicing and yields a full page of 10 identifiers,
not the empty sequence the claim promises for every out-of-range page
(the mathematical half-open window `[-20, -10)` holds no valid index). -/
theorem c4_pagination_counterexample :
    sliceForPage (List.range 25) (-1) 10 "desc" ≠ [] ∧
    (sliceForPage (List.range 25) (-1) 10 "desc").length = 10 := by
  constructor
  · decide
  · decide

/-- C4 (amended): for `page ≥ 1` and `page_size ≥ 0` the stream processes
exactly the half-open slice `[(page-1)*page_size, page*page_size)` of the
identifier list (reversed first when the order is `"desc"`), with no
bounds validation, and a page starting at or beyond the end of the list
yields the empty sequence rather than an error; pages `≤ 0` (or a negative
page size) instead follow Python's negative-index slice semantics. -/
theorem c4_pagination_slice (ids : List α) (page ps : Int) (ord : String)
    (hp : 1 ≤ page) (hps : 0 ≤ ps) :
    sliceForPage ids page ps ord =
      ((if ord = "desc" then ids.reverse else ids).drop
        ((page - 1) * ps).toNat).take ps.toNat ∧
    (((if ord = "desc" then ids.reverse else ids).length : Int) ≤ (page - 1) * ps →
      sliceForPage ids page ps ord = []) := by
  set L := if ord = "desc" then ids.reverse else ids with hL
  set a := (page - 1) * ps with haDef
  have ha : (0 : Int) ≤ a := mul_nonneg (by omega) hps
  have hb : (0 : Int) ≤ a + ps := by omega
  have hmain : sliceForPage ids page ps ord = (L.drop a.toNat).take ps.toNat := by
    simp only [sliceForPage, pySlice, ← hL, ← haDef,
      if_neg (not_lt.mpr ha), if_neg (not_lt.mpr hb)]
    rcases le_or_lt a (L.length : Int) with han | han
    · rw [min_eq_left han]
      rcases le_or_lt (a + ps) (L.length : Int) with hbn | hbn
      · rw [min_eq_left hbn, add_sub_cancel_left]
      · rw [min_eq_right (le_of_lt hbn)]
        have hlen : (L.drop a.toNat).length = L.length - a.toNat := List.length_drop _ _
        rw [List.take_of_length_le (by omega), List.take_of_length_le (by omega)]
    · rw [min_eq_right (le_of_lt han), min_eq_right (by omega)]
      have h1 : L.drop ((L.length : Int)).toNat = [] :=
        List.drop_eq_nil_of_le (by omega)
      have h2 : L.drop a.toNat = [] := List.drop_eq_nil_of_le (by omega)
      rw [h1, h2]
      simp
  refine ⟨hmain, fun hout => ?_⟩
  rw [hmain, List.drop_eq_nil_of_le (by omega)]
  simp

/-- C4 witness: the spec's own example — page 2, page size 10, over 25
matched identifiers in descending order — processes exactly ranks 11-20 of
the reversed identifier list. -/
theorem c4_pagination_slice_witness :
    sliceForPage (List.range 25) 2 10 "desc" =
      ((List.range 25).reverse.drop 10).take 10 := by
  have h := (c4_pagination_slice (List.range 25) 2 10 "desc"
    (by norm_num) (by norm_num)).1
  norm_num at h
  exact h

/-! ### Claim C3 -/

/-- C3 (counterexample to the claim as stated): on a message whose declared
charset is not a known codec, `payload.decode(charset)` raises
`LookupError`, which the `except UnicodeDecodeError` clause does not
catch, so `_parse_email_data` raises instead of returning a field set. -/
theorem c3_parse_counterexample :
    parse_email_data bogusCtx (strBytes "raw") = .error PyExc.lookupError := by
  rfl

theorem decodeWithFallback_isOk (c : Codecs) (cs : String) (bp : Bytes)
    (h : (c.lookup cs).isSome = true) :
    ∃ s, decodeWithFallback c cs bp = .ok s := by
  obtain ⟨dec, hd⟩ := Option.isSome_iff_exists.mp h
  unfold decodeWithFallback pyDecode
  rw [hd]
  cases hdec : dec bp <;> simp [hdec]

theorem walkBody_isOk (ctx : ParseCtx)
    (hall : ∀ cs, (ctx.codecs.lookup cs).isSome = true) :
    ∀ parts : List PyPart, ∃ r, walkBody ctx parts = .ok r := by
  intro parts
  induction parts with
  | nil => exact ⟨("", []), rfl⟩
  | cons p rest ih =>
    obtain ⟨r, hr⟩ := ih
    by_cases hatt : strContains "attachment" p.contentDisposition
    · cases hfn : p.filename with
      | none => exact ⟨r, by simp [walkBody, hatt, hfn, hr]⟩
      | some fn => exact ⟨(r.1, fn :: r.2), by simp [walkBody, hatt, hfn, hr, Except.map]⟩
    · by_cases hct : p.contentType = "text/plain"
      · cases hpd : p.payloadDec with
        | none => exact ⟨r, by simp [walkBody, hatt, hct, hpd, hr]⟩
        | some bp =>
          by_cases hbe : bp.isEmpty
          · exact ⟨r, by simp [walkBody, hatt, hct, hpd, hbe, hr]⟩
          · obtain ⟨s, hs⟩ :=
              decodeWithFallback_isOk ctx.codecs (p.charsetParam.getD "utf-8") bp
                (hall _)
            exact ⟨(s ++ r.1, r.2),
              by simp [walkBody, hatt, hct, hpd, hbe, hs, hr, Except.map]⟩
      · exact ⟨r, by simp [walkBody, hatt, hct, hr]⟩

/-- C3 (amended): `_parse_email_data` returns a structured field set
without raising provided every charset it consults names a known codec; a
known charset whose bytes cannot be decoded falls back to UTF-8 with lossy
replacement (only `UnicodeDecodeError` is caught), and a date header that
fails to parse — or whose timestamp conversion raises — is replaced by the
current wall-clock time.  (Per `c3_parse_counterexample`, an unknown
charset name raises `LookupError` out of the parser; the stream's
per-message handler then skips that message.) -/
theorem c3_parse_robustness :
    (∀ (ctx : ParseCtx) (raw : Bytes),
      (∀ cs, (ctx.codecs.lookup cs).isSome = true) →
      ∃ p, parse_email_data ctx raw = .ok p) ∧
    (∀ (c : Codecs) (cs : String) (bp : Bytes) (dec : Bytes → Option String),
      c.lookup cs = some dec → dec bp = none →
      decodeWithFallback c cs bp = .ok (c.utf8Replace bp)) ∧
    (∀ (ctx : ParseCtx) (ds : String),
      (ctx.parsedate_tz ds = none → parseDateField ctx ds = ctx.now) ∧
      (∀ t e, ctx.parsedate_tz ds = some t → ctx.mk_datetime t = .error e →
        parseDateField ctx ds = ctx.now)) := by
  refine ⟨fun ctx raw hall => ?_, fun c cs bp dec hl hd => ?_, fun ctx ds => ⟨?_, ?_⟩⟩
  · set m := ctx.parsebytes raw with hm
    by_cases hmp : m.isMultipart
    · obtain ⟨r, hr⟩ := walkBody_isOk ctx hall m.walkParts
      exact ⟨⟨m.subject, m.fromAddr, r.1, parseDateField ctx m.dateStr, r.2⟩,
        by simp [parse_email_data, ← hm, hmp, hr]⟩
    · cases hpd : m.payloadDec with
      | none =>
        exact ⟨⟨m.subject, m.fromAddr, "", parseDateField ctx m.dateStr, []⟩,
          by simp [parse_email_data, ← hm, hmp, hpd]⟩
      | some bp =>
        by_cases hbe : bp.isEmpty
        · exact ⟨⟨m.subject, m.fromAddr, "", parseDateField ctx m.dateStr, []⟩,
            by simp [parse_email_data, ← hm, hmp, hpd, hbe]⟩
        · obtain ⟨s, hs⟩ :=
            decodeWithFallback_isOk ctx.codecs (m.charsetParam.getD "utf-8") bp
              (hall _)
          exact ⟨⟨m.subject, m.fromAddr, s, parseDateField ctx m.dateStr, []⟩,
            by simp [parse_email_data, ← hm, hmp, hpd, hbe, hs]⟩
  · simp [decodeWithFallback, pyDecode, hl, hd]
  · intro h
    simp [parseDateField, h]
  · intro t e ht he
    simp [parseDateField, ht, he]

/-- C3 witness: with every charset known, parsing the counterexample's
input succeeds. -/
theorem c3_parse_robustness_witness :
    ∃ p, parse_email_data totalCtx (strBytes "raw") = .ok p :=
  c3_parse_robustness.1 totalCtx (strBytes "raw") (fun _ => rfl)

/-! ### Claim C2 -/

/-- The fallback loop stops at the first format whose attempt succeeds:
with every format of `pre` failing and `f` succeeding, it returns `f`'s
data having attempted exactly `pre ++ [f]` (whatever follows is never
attempted, and the threaded `data` leftover is irrelevant). -/
theorem fetchLoop_first_success (fetch : String → String → Except PyExc FetchData)
    (mid : String) :
    ∀ (pre : List String) (f : String) (post : List String) (d0 : FetchData),
      (∀ g ∈ pre, attemptOk fetch mid g = false) →
      attemptOk fetch mid f = true →
      fetchLoop fetch mid (pre ++ f :: post) d0 = (attemptData fetch mid f, pre ++ [f]) := by
  intro pre
  induction pre with
  | nil =>
    intro f post d0 _ hf
    unfold attemptOk at hf
    cases hfe : fetch mid f with
    | error e => rw [hfe] at hf; simp at hf
    | ok data =>
      rw [hfe] at hf
      simp only [Bool.and_eq_true] at hf
      simp [fetchLoop, hfe, hf.1, hf.2, attemptData]
  | cons g gs ih =>
    intro f post d0 hpre hf
    have hg : attemptOk fetch mid g = false := hpre g (by simp)
    have hrest : ∀ x ∈ gs, attemptOk fetch mid x = false :=
      fun x hx => hpre x (by simp [hx])
    unfold attemptOk at hg
    cases hge : fetch mid g with
    | error e =>
      simp [fetchLoop, hge, ih f post none hrest hf]
    | ok data =>
      rw [hge] at hg
      by_cases hdt : dataTruthy data
      · have hhc : hasContent (data.getD []) = false := by
          simp [hdt] at hg
          exact hg
        simp [fetchLoop, hge, hdt, hhc, ih f post none hrest hf]
      · simp only [Bool.not_eq_true] at hdt
        simp [fetchLoop, hge, hdt, ih f post data hrest hf]

/-- When every format's attempt fails and the threaded `data` starts
falsy, the loop ends with falsy `data` having attempted every format. -/
theorem fetchLoop_all_fail (fetch : String → String → Except PyExc FetchData)
    (mid : String) :
    ∀ (fms : List String) (d0 : FetchData),
      (∀ g ∈ fms, attemptOk fetch mid g = false) →
      dataTruthy d0 = false →
      dataTruthy (fetchLoop fetch mid fms d0).1 = false ∧
      (fetchLoop fetch mid fms d0).2 = fms := by
  intro fms
  induction fms with
  | nil => intro d0 _ hd0; exact ⟨hd0, rfl⟩
  | cons g gs ih =>
    intro d0 hall hd0
    have hg : attemptOk fetch mid g = false := hall g (by simp)
    have hrest : ∀ x ∈ gs, attemptOk fetch mid x = false :=
      fun x hx => hall x (by simp [hx])
    unfold attemptOk at hg
    cases hge : fetch mid g with
    | error e =>
      have h := ih none hrest rfl
      simp [fetchLoop, hge, h.1, h.2]
    | ok data =>
      rw [hge] at hg
      by_cases hdt : dataTruthy data
      · have hhc : hasContent (data.getD []) = false := by
          simp [hdt] at hg
          exact hg
        have h := ih none hrest rfl
        simp [fetchLoop, hge, hdt, hhc, h.1, h.2]
      · simp only [Bool.not_eq_true] at hdt
        have h := ih data hrest hdt
        simp [fetchLoop, hge, hdt, h.1, h.2]

/-- C2: the fetch pipeline uses exactly the four fixed request encodings
with the PEEK forms first; it stops at the first encoding whose response
contains a content-bearing fragment and never attempts a later one; when
every encoding's attempt fails (including because the response carried
only flags and no content) the message is skipped — `processMessage`
returns no record after attempting all four formats, raising nothing.
The last conjuncts show flags-only fragments (short or long) are never
content-bearing. -/
theorem c2_fetch_format_fallback :
    (fetch_formats =
      ["(BODY.PEEK[] FLAGS)", "BODY.PEEK[] FLAGS", "(BODY[] FLAGS)", "(RFC822 FLAGS)"]) ∧
    (∀ (fetch : String → String → Except PyExc FetchData) (mid : String)
        (pre : List String) (f : String) (post : List String) (d0 : FetchData),
      (∀ g ∈ pre, attemptOk fetch mid g = false) →
      attemptOk fetch mid f = true →
      fetchLoop fetch mid (pre ++ f :: post) d0 = (attemptData fetch mid f, pre ++ [f])) ∧
    (∀ (fetch : String → String → Except PyExc FetchData) (ctx : ParseCtx)
        (mid : Bytes) (midStr : String),
      pyDecode ctx.codecs "utf-8" mid = .ok midStr →
      (∀ g ∈ fetch_formats, attemptOk fetch midStr g = false) →
      (processMessage fetch ctx mid).1 = none ∧
      (processMessage fetch ctx mid).2 = fetch_formats) ∧
    (itemHasContent (.bytesItem (strBytes "12 FETCH (FLAGS (\\Seen))")) = false ∧
     itemHasContent (.bytesItem
       (strBytes "12 FETCH (FLAGS (\\Seen \\Answered))" ++ List.replicate 100 32)) = false) := by
  refine ⟨rfl, fetchLoop_first_success, fun fetch ctx mid midStr hdec hall => ?_, by rfl, by rfl⟩
  have h := fetchLoop_all_fail fetch midStr fetch_formats none hall rfl
  constructor
  · simp [processMessage, hdec, h.1]
  · simp [processMessage, hdec, h.1, h.2]

/-- C2 witness: in the spec's mock scenario only the third encoding
returns content-bearing fragments; the loop returns that content having
attempted exactly the first three formats. -/
theorem c2_fetch_format_fallback_witness :
    fetchLoop thirdFormatFetch "7" fetch_formats none =
      (some [RespItem.bytesItem demoContentA],
        ["(BODY.PEEK[] FLAGS)", "BODY.PEEK[] FLAGS", "(BODY[] FLAGS)"]) := by
  have h := c2_fetch_format_fallback.2.1 thirdFormatFetch "7"
    ["(BODY.PEEK[] FLAGS)", "BODY.PEEK[] FLAGS"] "(BODY[] FLAGS)" ["(RFC822 FLAGS)"] none
    (by intro g hg; fin_cases hg <;> rfl) (by rfl)
  exact h

/-! ### Claim C1 -/

/-- C1: with the stream consumed to the end, the per-message loop yields,
in order, exactly the records of the identifiers whose processing
succeeds — a per-message failure (fetch or parse) skips only that message
(`processMessage` of it is `none`) and every other successfully processed
identifier still contributes its record in the original sequence; and in
the spec's concrete scenario (ids `1 2 3`, fetching `2` always raises) the
stream yields exactly the two records of `1` and `3`, in order. -/
theorem c1_per_message_isolation :
    (∀ (fetch : String → String → Except PyExc FetchData) (ctx : ParseCtx)
        (mids : List Bytes) (y : Nat),
      (streamLoop fetch ctx none mids y).1 =
        mids.filterMap (fun m => (processMessage fetch ctx m).1)) ∧
    (get_emails_stream demoSession demoParseCtx none 1 10 none none none none none
      none none "asc" none none).yielded = [demoRec 49, demoRec 51] := by
  constructor
  · intro fetch ctx mids
    induction mids with
    | nil => intro y; rfl
    | cons m rest ih =>
      intro y
      cases hpm : (processMessage fetch ctx m).1 with
      | none => simp [streamLoop, hpm, ih y]
      | some rec => simp [streamLoop, hpm, ih (y + 1)]
  · rfl

/-! ### Claim C5 -/

/-- Every event the per-message loop emits is a fetch. -/
theorem streamLoop_events_are_fetch (fetch : String → String → Except PyExc FetchData)
    (ctx : ParseCtx) (ca : Option Nat) :
    ∀ (mids : List Bytes) (y : Nat) (e : Ev),
      e ∈ (streamLoop fetch ctx ca mids y).2.2 → ∃ fmt, e = Ev.fetch fmt := by
  intro mids
  induction mids with
  | nil => intro y e he; simp [streamLoop] at he
  | cons m rest ih =>
    intro y e he
    cases hpm : (processMessage fetch ctx m).1 with
    | none =>
      have hev : (streamLoop fetch ctx ca (m :: rest) y).2.2 =
          ((processMessage fetch ctx m).2.map Ev.fetch) ++
            (streamLoop fetch ctx ca rest y).2.2 := by
        simp [streamLoop, hpm]
      rw [hev] at he
      rcases List.mem_append.mp he with h | h
      · obtain ⟨fmt, _, rfl⟩ := List.mem_map.mp h
        exact ⟨fmt, rfl⟩
      · exact ih y e h
    | some rec =>
      cases hca : ca with
      | some k =>
        by_cases hk : y + 1 ≥ k
        · have hev : (streamLoop fetch ctx (some k) (m :: rest) y).2.2 =
              (processMessage fetch ctx m).2.map Ev.fetch := by
            simp [streamLoop, hpm, hk]
          rw [hca] at he
          rw [hev] at he
          obtain ⟨fmt, _, rfl⟩ := List.mem_map.mp he
          exact ⟨fmt, rfl⟩
        · have hev : (streamLoop fetch ctx (some k) (m :: rest) y).2.2 =
              ((processMessage fetch ctx m).2.map Ev.fetch) ++
                (streamLoop fetch ctx (some k) rest (y + 1)).2.2 := by
            simp [streamLoop, hpm, hk]
          rw [hca] at he
          rw [hev] at he
          rcases List.mem_append.mp he with h | h
          · obtain ⟨fmt, _, rfl⟩ := List.mem_map.mp h
            exact ⟨fmt, rfl⟩
          · rw [hca] at ih
            exact ih (y + 1) e h
      | none =>
        have hev : (streamLoop fetch ctx none (m :: rest) y).2.2 =
            ((processMessage fetch ctx m).2.map Ev.fetch) ++
              (streamLoop fetch ctx none rest (y + 1)).2.2 := by
          simp [streamLoop, hpm]
        rw [hca] at he
        rw [hev] at he
        rcases List.mem_append.mp he with h | h
        · obtain ⟨fmt, _, rfl⟩ := List.mem_map.mp h
          exact ⟨fmt, rfl⟩
        · rw [hca] at ih
          exact ih (y + 1) e h

/-- The body of the stream's `try` never calls logout itself. -/
theorem streamTryBody_no_logout (s : Session) (ctx : ParseCtx) (ca : Option Nat)
    (page ps : Int) (b si : Option PyDate) (su bo te fr toq : Option String)
    (ord : String) (u f : Option Bool) :
    Ev.logout ∉ (streamTryBody s ctx ca page ps b si su bo te fr toq ord u f).2.2 := by
  intro hmem
  rcases hc : s.connect with e | u1
  · simp [streamTryBody, hc] at hmem
  rcases hh : s.hello with e | u2
  · simp [streamTryBody, hc, hh] at hmem
  rcases hl : s.login with e | u3
  · simp [streamTryBody, hc, hh, hl] at hmem
  rcases hsel : s.select with e | u5
  · rcases hi : s.idCmd with e2 | u4 <;> simp [streamTryBody, hc, hh, hl, hi, hsel] at hmem
  rcases hsr : s.search (build_search_criteria b si su bo te fr toq u f) with e | resp
  · rcases hi : s.idCmd with e2 | u4 <;>
      simp [streamTryBody, hc, hh, hl, hi, hsel, hsr] at hmem
  have hred : (streamTryBody s ctx ca page ps b si su bo te fr toq ord u f).2.2 =
      [Ev.connect, Ev.hello, Ev.login, Ev.idCmd, Ev.select, Ev.search] ++
        (streamLoop s.fetch ctx ca (sliceForPage (searchIds resp) page ps ord) 0).2.2 := by
    rcases hi : s.idCmd with e2 | u4 <;>
      simp [streamTryBody, hc, hh, hl, hi, hsel, hsr]
  rw [hred] at hmem
  rcases List.mem_append.mp hmem with h | h
  · simp at h
  · obtain ⟨fmt, hfmt⟩ := streamLoop_events_are_fetch s.fetch ctx ca _ 0 Ev.logout h
    cases hfmt

/-- The body of the count's `try` never calls logout itself. -/
theorem countTryBody_no_logout (s : Session) (b si : Option PyDate)
    (su bo te fr toq : Option String) (u f : Option Bool) :
    Ev.logout ∉ (countTryBody s b si su bo te fr toq u f).2 := by
  intro hmem
  rcases hc : s.connect with e | u1
  · simp [countTryBody, hc] at hmem
  rcases hh : s.hello with e | u2
  · simp [countTryBody, hc, hh] at hmem
  rcases hl : s.login with e | u3
  · simp [countTryBody, hc, hh, hl] at hmem
  rcases hsel : s.select with e | u5
  · simp [countTryBody, hc, hh, hl, hsel] at hmem
  rcases hsr : s.search (build_search_criteria b si su bo te fr toq u f) with e | resp
  · simp [countTryBody, hc, hh, hl, hsel, hsr] at hmem
  rcases resp with _ | ⟨h0, rest⟩ <;>
    simp [countTryBody, hc, hh, hl, hsel, hsr] at hmem

/-- C5: on every exit path — normal completion, early abandonment of the
stream (`closeAfter`), or an exception anywhere, including a session whose
establishment only partially succeeded — both the stream and the count
invoke logout exactly once; and the operation's whole result (records,
outcome, events) is unchanged by a failure of logout itself, which is
caught and logged. -/
theorem c5_logout_exactly_once :
    (∀ (s : Session) (ctx : ParseCtx) (ca : Option Nat) (page ps : Int)
        (b si : Option PyDate) (su bo te fr toq : Option String)
        (ord : String) (u f : Option Bool),
      ((get_emails_stream s ctx ca page ps b si su bo te fr toq ord u f).events.count
        Ev.logout) = 1) ∧
    (∀ (s : Session) (b si : Option PyDate) (su bo te fr toq : Option String)
        (u f : Option Bool),
      (((get_email_count s b si su bo te fr toq u f).2).count Ev.logout) = 1) ∧
    (∀ (s : Session) (x : Except PyExc Unit) (ctx : ParseCtx) (ca : Option Nat)
        (page ps : Int) (b si : Option PyDate) (su bo te fr toq : Option String)
        (ord : String) (u f : Option Bool),
      get_emails_stream { s with logout := x } ctx ca page ps b si su bo te fr toq ord u f =
      get_emails_stream { s with logout := Except.ok () } ctx ca page ps b si su bo te fr
        toq ord u f) ∧
    (∀ (s : Session) (x : Except PyExc Unit) (b si : Option PyDate)
        (su bo te fr toq : Option String) (u f : Option Bool),
      get_email_count { s with logout := x } b si su bo te fr toq u f =
      get_email_count { s with logout := Except.ok () } b si su bo te fr toq u f) := by
  refine ⟨fun s ctx ca page ps b si su bo te fr toq ord u f => ?_,
    fun s b si su bo te fr toq u f => ?_,
    fun s x ctx ca page ps b si su bo te fr toq ord u f => ?_,
    fun s x b si su bo te fr toq u f => ?_⟩
  · have hnl := streamTryBody_no_logout s ctx ca page ps b si su bo te fr toq ord u f
    unfold get_emails_stream
    cases s.logout <;>
      simp [List.count_append, List.count_cons, List.count_nil,
        List.count_eq_zero.mpr hnl]
  · have hnl := countTryBody_no_logout s b si su bo te fr toq u f
    unfold get_email_count
    cases s.logout <;>
      simp [List.count_append, List.count_cons, List.count_nil,
        List.count_eq_zero.mpr hnl]
  · cases x <;> rfl
  · cases x <;> rfl

/-! ### Claim C7 -/

/-- C7 (evidence of the divergence): when the server's uid search returns
a missing (`None`) or empty (`[]`) result, the stream guards for it
(lines 124-128) and yields an empty sequence with a normal outcome, but
`get_email_count` has no such guard (line 317): `messages[0]` raises
`TypeError` on `None` and `IndexError` on `[]` instead of returning 0.
Only the `[b""]` shape (an empty byte string of matches) gives count 0. -/
theorem c7_count_unguarded_search_response :
    (get_email_count searchNoneSession none none none none none none none none
      none).1 = .error PyExc.typeError ∧
    (get_email_count searchEmptyListSession none none none none none none none none
      none).1 = .error PyExc.indexError ∧
    (get_email_count searchEmptyBytesSession none none none none none none none none
      none).1 = .ok 0 ∧
    (get_emails_stream searchNoneSession demoParseCtx none 1 10 none none none none none
      none none "desc" none none).yielded = [] ∧
    (get_emails_stream searchNoneSession demoParseCtx none 1 10 none none none none none
      none none "desc" none none).outcome = .ok () ∧
    (get_emails_stream searchEmptyListSession demoParseCtx none 1 10 none none none none
      none none none "desc" none none).yielded = [] ∧
    (get_emails_stream searchEmptyBytesSession demoParseCtx none 1 10 none none none none
      none none none "desc" none none).yielded = [] :=
  ⟨rfl, rfl, rfl, rfl, rfl, rfl, rfl⟩

/-! ### Claim C9 -/

/-- C9: the page result's `total` is exactly what the independent
`get_email_count` over the same nine filter arguments returns (the size of
the full filtered identifier set), so it is invariant under `page` and
`page_size`; the concrete run shows `total = 3` while the returned page
slice holds a single record. -/
theorem c9_total_from_independent_count :
    (∀ (s1 s2 : Session) (ctx : ParseCtx) (page ps : Int) (b si : Option PyDate)
        (su bo te fr toq : Option String) (ord : String) (u f : Option Bool)
        (resp : EmailPageResponse),
      handler_get_emails s1 s2 ctx page ps b si su bo te fr toq ord u f = .ok resp →
      (get_email_count s2 b si su bo te fr toq u f).1 = .ok resp.total) ∧
    (∀ (s1 s2 : Session) (ctx : ParseCtx) (page ps page2 ps2 : Int)
        (b si : Option PyDate) (su bo te fr toq : Option String) (ord : String)
        (u f : Option Bool) (r1 r2 : EmailPageResponse),
      handler_get_emails s1 s2 ctx page ps b si su bo te fr toq ord u f = .ok r1 →
      handler_get_emails s1 s2 ctx page2 ps2 b si su bo te fr toq ord u f = .ok r2 →
      r1.total = r2.total) ∧
    (handler_get_emails demoSession demoSession demoParseCtx 1 1 none none none none none
      none none "asc" none none =
      .ok ⟨1, 1, none, none, none, none, none, [demoRec 49], 3⟩) := by
  have key : ∀ (s1 s2 : Session) (ctx : ParseCtx) (page ps : Int) (b si : Option PyDate)
      (su bo te fr toq : Option String) (ord : String) (u f : Option Bool)
      (resp : EmailPageResponse),
      handler_get_emails s1 s2 ctx page ps b si su bo te fr toq ord u f = .ok resp →
      (get_email_count s2 b si su bo te fr toq u f).1 = .ok resp.total := by
    intro s1 s2 ctx page ps b si su bo te fr toq ord u f resp h
    simp only [handler_get_emails] at h
    rcases hso : (get_emails_stream s1 ctx none page ps b si su bo te fr toq ord
        u f).outcome with e | u0
    · rw [hso] at h
      simp at h
    · rw [hso] at h
      rcases hc : (get_email_count s2 b si su bo te fr toq u f).1 with e | total
      · rw [hc] at h
        simp at h
      · rw [hc] at h
        simp only [Except.ok.injEq] at h
        subst h
        rfl
  refine ⟨key, ?_, rfl⟩
  intro s1 s2 ctx page ps page2 ps2 b si su bo te fr toq ord u f r1 r2 h1 h2
  have k1 := key s1 s2 ctx page ps b si su bo te fr toq ord u f r1 h1
  have k2 := key s1 s2 ctx page2 ps2 b si su bo te fr toq ord u f r2 h2
  rw [k1] at k2
  exact Except.ok.inj k2

/-- C9 witness: applying the total-equals-count direction to the concrete
run (page size 1 over three matching ids, total 3). -/
theorem c9_total_from_independent_count_witness :
    (get_email_count demoSession none none none none none none none none none).1 =
      .ok (3 : Nat) := by
  have h := c9_total_from_independent_count.1 demoSession demoSession demoParseCtx 1 1
    none none none none none none none "asc" none none
    ⟨1, 1, none, none, none, none, none, [demoRec 49], 3⟩
    c9_total_from_independent_count.2.2
  exact h
